import Mathlib

/-!
Shallow embedding of the tutoria-ia backend (FastAPI + SQLAlchemy) for
verification of its scheduling, lesson-lifecycle, progress, placement,
profile-update and token-verification logic.

Conventions of the embedding:
* timestamps are integer seconds since an arbitrary epoch (`Int`);
  `datetime` subtraction `total_seconds()` becomes integer subtraction;
* machine floats that only ever hold exact decimal data are modelled as `Rat`;
* a FastAPI handler becomes a total function returning
  `Except ApiError result`; raising `HTTPException` is `.error`, and an
  `.error` result leaves all state untouched (the session is rolled back,
  nothing was committed);
* a SQLAlchemy `select ... where` over the student's lessons becomes a
  predicate over an explicit `List Lesson`;
* values assigned by Python `setattr` from an untyped JSON payload are
  modelled by the dynamic value type `JsonVal`.
-/

/-- An HTTP error raised by a handler (`HTTPException(status_code, detail)`). -/
structure ApiError where
  status_code : Nat
  detail : String
  deriving DecidableEq, Repr

/-- A dynamically-typed JSON value as stored by Python `setattr` from an
untyped request payload. -/
inductive JsonVal where
  | str (s : String)
  | num (n : Int)
  | arr (xs : List String)
  | bool (b : Bool)
  | null
  deriving DecidableEq, Repr

/-- The `students` table row (`models/student.py`).  Fields that the
profile-update endpoint may assign from the raw JSON payload are typed
`JsonVal`; the remaining fields keep their column types. -/
structure Student where
  id : Nat
  clerk_user_id : String
  email : String
  full_name : JsonVal
  phone_number : JsonVal
  whatsapp_number : JsonVal
  age : JsonVal
  native_language : String
  english_level : Option String
  learning_goals : JsonVal
  preferred_lesson_times : JsonVal
  timezone : JsonVal
  learning_style : JsonVal
  interests : JsonVal
  subscription_status : String
  subscription_plan : Option String
  stripe_customer_id : Option String
  trial_lessons_remaining : Int
  total_lessons_completed : Int
  total_minutes_studied : Int
  current_streak_days : Int
  longest_streak_days : Int
  last_active_date : Option Int
  placement_test_score : Option Rat
  placement_test_completed : Bool
  weak_areas : JsonVal
  strong_areas : JsonVal
  custom_curriculum_preferences : JsonVal
  is_active : Bool
  deriving DecidableEq, Repr

/-- The `lessons` table row (`models/lesson.py`), restricted to the fields
the lesson-lifecycle endpoints read or write. -/
structure Lesson where
  id : Nat
  student_id : Nat
  scheduled_start : Int
  scheduled_end : Int
  duration_minutes : Int
  lesson_type : String
  status : String
  topic : Option String
  lesson_plan : String
  curriculum_module : Option String
  difficulty_level : Option String
  actual_start : Option Int := none
  actual_end : Option Int := none
  student_engagement_score : Option Rat := none
  speaking_time_percentage : Option Rat := none
  pronunciation_score : Option Rat := none
  grammar_accuracy_score : Option Rat := none
  vocabulary_usage_score : Option Rat := none
  overall_performance_score : Option Rat := none
  vocabulary_taught : Option (List String) := none
  grammar_points : Option (List String) := none
  homework_assigned : Option String := none
  ai_feedback : Option String := none
  student_rating : Option Int := none
  student_feedback : Option String := none
  canceled_at : Option Int := none
  cancellation_reason : Option String := none
  deriving DecidableEq, Repr

/-- The JSON body of `POST /schedule` (`lesson_data`), after ISO-8601
parsing of `scheduled_start`.  `duration_minutes` is `none` when the key is
absent (the code then defaults it to 60). -/
structure ScheduleRequest where
  scheduled_start : Int
  duration_minutes : Option Int := none
  topic : Option String := none
  lesson_type : Option String := none
  curriculum_module : Option String := none
  deriving DecidableEq, Repr

/-- The row filter of `schedule_lesson`'s conflict query (`api/lessons.py`):
`select(Lesson).where(student_id == current_user.id, status in
["scheduled","in_progress"], scheduled_start < new_end, scheduled_end >
new_start)`. -/
def conflict_query (student : Student) (new_start new_end : Int)
    (l : Lesson) : Bool :=
  l.student_id == student.id &&
  (l.status == "scheduled" || l.status == "in_progress") &&
  decide (l.scheduled_start < new_end) &&
  decide (l.scheduled_end > new_start)

/-- The conflict query returns at least one row. -/
def has_conflict (student : Student) (lessons : List Lesson)
    (new_start new_end : Int) : Bool :=
  lessons.any (conflict_query student new_start new_end)

/-- `POST /schedule` (`schedule_lesson` in `api/lessons.py`).
`lessons` is the student's lessons table; `plan` stands for the lesson plan
returned by the external AI lesson-plan generator; `new_id` is the id the
database assigns to the inserted row.  The conflict result is read with
`conflict.scalar_one_or_none()`: with no matching row it yields `None`
(scheduling proceeds), with exactly one matching row the handler raises
the 400 conflict error, and with two or more matching rows
`scalar_one_or_none` raises `MultipleResultsFound`, which the handler's
blanket `except Exception` turns into a 500 whose detail is `str(e)`.
On success, returns the updated student row together with the inserted
lesson. -/
def schedule_lesson (student : Student) (lessons : List Lesson)
    (req : ScheduleRequest) (plan : String) (new_id : Nat) :
    Except ApiError (Student × Lesson) :=
  let scheduled_start := req.scheduled_start
  let duration_minutes := req.duration_minutes.getD 60
  let scheduled_end := scheduled_start + duration_minutes * 60
  match lessons.filter (conflict_query student scheduled_start scheduled_end) with
  | _ :: _ :: _ =>
    .error ⟨500, "Multiple rows were found when one or none was required"⟩
  | [_] =>
    .error ⟨400, "Time slot conflicts with existing lesson"⟩
  | [] =>
    if student.subscription_status = "trial" ∧
        student.trial_lessons_remaining ≤ 0 then
      .error ⟨403, "No trial lessons remaining. Please subscribe."⟩
    else
      let lesson : Lesson :=
        { id := new_id
          student_id := student.id
          scheduled_start := scheduled_start
          scheduled_end := scheduled_end
          duration_minutes := duration_minutes
          lesson_type := req.lesson_type.getD "live"
          status := "scheduled"
          topic := req.topic
          lesson_plan := plan
          curriculum_module := req.curriculum_module
          difficulty_level := student.english_level }
      let student' :=
        if student.subscription_status = "trial" then
          { student with
              trial_lessons_remaining := student.trial_lessons_remaining - 1 }
        else student
      .ok (student', lesson)

/-- `POST /{lesson_id}/start` (`start_lesson`).  The select filters on
`student_id == current_user.id` and `status == "scheduled"`; an empty
result is a 404. -/
def start_lesson (student : Student) (lesson : Lesson) (now : Int) :
    Except ApiError Lesson :=
  if lesson.student_id = student.id ∧ lesson.status = "scheduled" then
    .ok { lesson with status := "in_progress", actual_start := some now }
  else
    .error ⟨404, "Lesson not found or already started"⟩

/-- The `performance` object of the `POST /{lesson_id}/end` summary payload;
each field is read by `.get(...)` and so may be absent. -/
structure PerformanceData where
  engagement : Option Rat := none
  speaking_time : Option Rat := none
  pronunciation : Option Rat := none
  grammar : Option Rat := none
  vocabulary : Option Rat := none
  overall : Option Rat := none
  deriving DecidableEq, Repr

/-- The `content` object of the end-lesson summary payload. -/
structure ContentData where
  vocabulary : Option (List String) := none
  grammar : Option (List String) := none
  homework : Option String := none
  deriving DecidableEq, Repr

/-- The `summary_data` body of `POST /{lesson_id}/end`; each top-level key
is optional (`if "performance" in summary_data`, etc.). -/
structure SummaryData where
  performance : Option PerformanceData := none
  content : Option ContentData := none
  ai_feedback : Option String := none
  deriving DecidableEq, Repr

/-- The three `if ... in summary_data` blocks of `end_lesson` that copy the
summary payload onto the lesson row. -/
def absorb_summary (lesson : Lesson) (summary : SummaryData) : Lesson :=
  let lesson :=
    match summary.performance with
    | some p =>
        { lesson with
            student_engagement_score := p.engagement
            speaking_time_percentage := p.speaking_time
            pronunciation_score := p.pronunciation
            grammar_accuracy_score := p.grammar
            vocabulary_usage_score := p.vocabulary
            overall_performance_score := p.overall }
    | none => lesson
  let lesson :=
    match summary.content with
    | some c =>
        { lesson with
            vocabulary_taught := c.vocabulary
            grammar_points := c.grammar
            homework_assigned := c.homework }
    | none => lesson
  match summary.ai_feedback with
  | some fb => { lesson with ai_feedback := some fb }
  | none => lesson

/-- `POST /{lesson_id}/end` (`end_lesson`).  The select filters on
ownership and `status == "in_progress"`.  `duration_minutes` is recomputed
as `int((actual_end - actual_start).total_seconds() / 60)`: Python `int()`
truncates toward zero, hence `Int.tdiv`.  A lesson in progress without an
`actual_start` would raise an unhandled `TypeError` (`None` arithmetic),
surfacing as a 500.  On success, returns the updated student and lesson. -/
def end_lesson (student : Student) (lesson : Lesson) (summary : SummaryData)
    (now : Int) : Except ApiError (Student × Lesson) :=
  if lesson.student_id = student.id ∧ lesson.status = "in_progress" then
    match lesson.actual_start with
    | none => .error ⟨500, "unsupported operand type"⟩
    | some t0 =>
      let duration := Int.tdiv (now - t0) 60
      let lesson' := absorb_summary
        { lesson with
            status := "completed"
            actual_end := some now
            duration_minutes := duration } summary
      let student' :=
        { student with
            total_lessons_completed := student.total_lessons_completed + 1
            total_minutes_studied := student.total_minutes_studied + duration
            last_active_date := some now }
      .ok (student', lesson')
  else
    .error ⟨404, "Active lesson not found"⟩

/-- `POST /{lesson_id}/cancel` (`cancel_lesson`).  The select filters on
ownership and `status == "scheduled"`.  The 24-hour-policy block is pure
`pass` statements; the only state effect besides the status change is the
trial refund when ≥ 86400 seconds remain before the scheduled start. -/
def cancel_lesson (student : Student) (lesson : Lesson)
    (reason : Option String) (now : Int) :
    Except ApiError (Student × Lesson) :=
  if lesson.student_id = student.id ∧ lesson.status = "scheduled" then
    let lesson' :=
      { lesson with
          status := "canceled"
          canceled_at := some now
          cancellation_reason := reason }
    let student' :=
      if student.subscription_status = "trial" ∧
          86400 ≤ lesson.scheduled_start - now then
        { student with
            trial_lessons_remaining := student.trial_lessons_remaining + 1 }
      else student
    .ok (student', lesson')
  else
    .error ⟨404, "Scheduled lesson not found"⟩

/-- The body of `POST /{lesson_id}/rate`; `rating` is accessed with `[...]`
(required), `feedback` with `.get` (optional). -/
structure RatingData where
  rating : Int
  feedback : Option String := none
  deriving DecidableEq, Repr

/-- `POST /{lesson_id}/rate` (`rate_lesson`).  The select filters on
ownership and `status == "completed"`. -/
def rate_lesson (student : Student) (lesson : Lesson) (rating_data : RatingData) :
    Except ApiError Lesson :=
  if lesson.student_id = student.id ∧ lesson.status = "completed" then
    .ok { lesson with
            student_rating := some rating_data.rating
            student_feedback := rating_data.feedback }
  else
    .error ⟨404, "Completed lesson not found"⟩

/-- `verify_token` in `auth.py` returns this user dict: `sub` and `email`
come from `payload.get(...)` (possibly `None`), `name` from
`payload.get("name", "")` (defaulted to `""`). -/
structure UserData where
  user_id : Option String
  email : Option String
  name : String
  deriving DecidableEq, Repr

/-- Outcome of `jwt.decode(token, CLERK_SECRET_KEY, algorithms=["RS256"])`:
a payload (its `sub` / `email` / `name` claims, each possibly absent), an
`ExpiredSignatureError`, or any other `InvalidTokenError` with a message. -/
inductive DecodeResult where
  | ok (sub : Option String) (email : Option String) (name : Option String)
  | expired
  | invalid (msg : String)
  deriving DecidableEq, Repr

/-- The fixed mock identity of the development-mode carve-out. -/
def dev_mock_user : UserData :=
  ⟨some "dev_user_123", some "dev@example.com", "Dev User"⟩

/-- Python `s.startswith(pre)`: a prefix test on the character sequence. -/
def starts_with (s pre : String) : Bool :=
  List.isPrefixOf pre.data s.data

/-- `verify_token` in `auth.py`.  `env` is `os.getenv("ENVIRONMENT")`;
`clerk_key` is `CLERK_SECRET_KEY` (`none` models an unset or empty key,
both falsy in `if not CLERK_SECRET_KEY`); `decode` is the external
`jwt.decode` oracle.  Mirrors the branch order of the source: the
development carve-out, the missing-header check, the `Bearer ` prefix
check, the key check, then decoding.  The source tests the header with
Python truthiness (`not authorization`), so an *empty* header value
behaves like an absent one in the first two checks. -/
def verify_token (env : String) (authorization : Option String)
    (clerk_key : Option String) (decode : String → DecodeResult) :
    Except ApiError UserData :=
  if env = "development" ∧ (authorization = none ∨ authorization = some "") then
    .ok dev_mock_user
  else
    match authorization with
    | none => .error ⟨401, "Missing authorization header"⟩
    | some auth =>
      if auth = "" then .error ⟨401, "Missing authorization header"⟩
      else if ¬ starts_with auth "Bearer " then
        .error ⟨401, "Invalid authorization header format"⟩
      else
        let token := auth.replace "Bearer " ""
        match clerk_key with
        | none => .error ⟨500, "Clerk secret key not configured"⟩
        | some _ =>
          match decode token with
          | .ok sub email name => .ok ⟨sub, email, name.getD ""⟩
          | .expired => .error ⟨401, "Token has expired"⟩
          | .invalid msg => .error ⟨401, "Invalid token: " ++ msg⟩

/-- `determine_cefr_level` in `api/progress.py`. -/
def determine_cefr_level (overall_score : Rat) : String :=
  if overall_score ≥ 85 then "C2"
  else if overall_score ≥ 70 then "C1"
  else if overall_score ≥ 55 then "B2"
  else if overall_score ≥ 40 then "B1"
  else if overall_score ≥ 25 then "A2"
  else "A1"

/-- The CEFR threshold mapping exactly as the spec words it (§4.7):
"≥85→C2, ≥70→C1, ≥55→B2, ≥40→B1, ≥25→A2, else→A1"; stated separately so
the code's `determine_cefr_level` can be proved to refine it. -/
def cefr_level_spec (score : Rat) : String :=
  if 85 ≤ score then "C2"
  else if 70 ≤ score then "C1"
  else if 55 ≤ score then "B2"
  else if 40 ≤ score then "B1"
  else if 25 ≤ score then "A2"
  else "A1"

/-- A `progress` table row as read by `calculate_improvement_rate`:
its `assessment_date` (seconds) and `overall_level`. -/
structure ProgressRec where
  assessment_date : Int
  overall_level : Rat
  deriving DecidableEq, Repr

/-- `calculate_improvement_rate` in `api/progress.py`.  `priors_desc` is
the student's existing Progress rows ordered by `assessment_date`
descending, as produced by the function's own query (the new assessment is
not yet inserted when this runs); `.offset(1).limit(1)` takes the element
at index 1.  `timedelta.days` floors, hence `Int.fdiv ... 86400`. -/
def calculate_improvement_rate (priors_desc : List ProgressRec)
    (current_score : Rat) (now : Int) : Rat :=
  match (priors_desc.drop 1).head? with
  | some prev_progress =>
    let days_diff := Int.fdiv (now - prev_progress.assessment_date) 86400
    if days_diff > 0 then
      (current_score - prev_progress.overall_level) / (days_diff : Rat)
    else 0
  | none => 0

/-- Python 3 `round` restricted to exact (rational) inputs: round half to
even, returning an integer. -/
def pyRound (q : Rat) : Int :=
  let f : Int := ⌊q⌋
  let frac := q - (f : Rat)
  if frac < 1/2 then f
  else if 1/2 < frac then f + 1
  else if f % 2 = 0 then f else f + 1

/-- Python `round(q, 1)` on exact inputs: round to one decimal place. -/
def roundTo1 (q : Rat) : Rat := (pyRound (q * 10) : Rat) / 10

/-- The response of `POST /api/assessment/evaluate` (`main.py`), minus the
static `level_details` blob. -/
structure PlacementResult where
  score : Nat
  total : Nat
  percentage : Rat
  recommended_level : Nat
  deriving DecidableEq, Repr

/-- `evaluate_placement` in `main.py`.  `answers` maps each section name to
its list of answer records, an answer record reduced to its
`answer.get("correct", False)` value.  The nested loops count `total` and
`score`; `percentage` is guarded against `total == 0`; the level brackets
are the endpoint's own; the response rounds `percentage` to one decimal. -/
def evaluate_placement (answers : List (String × List Bool)) :
    PlacementResult :=
  let counts := answers.foldl
    (fun acc sec => sec.2.foldl
      (fun acc2 a => (if a then acc2.1 + 1 else acc2.1, acc2.2 + 1)) acc)
    ((0 : Nat), (0 : Nat))
  let score := counts.1
  let total := counts.2
  let percentage : Rat :=
    if total > 0 then ((score : Rat) / (total : Rat)) * 100 else 0
  let level : Nat :=
    if percentage ≤ 30 then 0
    else if percentage ≤ 45 then 1
    else if percentage ≤ 60 then 3
    else if percentage ≤ 75 then 4
    else if percentage ≤ 85 then 6
    else 7
  ⟨score, total, roundTo1 percentage, level⟩

/-- Number of answer records marked correct across all sections (the
claim's "number of records with correct = true"). -/
def count_correct (answers : List (String × List Bool)) : Nat :=
  (answers.map fun sec => (sec.2.filter id).length).sum

/-- Total number of answer records across all sections. -/
def count_total (answers : List (String × List Bool)) : Nat :=
  (answers.map fun sec => sec.2.length).sum

/-- The `allowed_fields` list of `update_profile` (`api/auth.py`). -/
def allowed_fields : List String :=
  ["full_name", "phone_number", "whatsapp_number",
   "age", "learning_goals", "preferred_lesson_times",
   "timezone", "learning_style", "interests"]

/-- `setattr(current_user, field, profile_data[field])` for the field names
`update_profile` iterates over (any other name is never passed). -/
def set_field (s : Student) (f : String) (v : JsonVal) : Student :=
  if f = "full_name" then { s with full_name := v }
  else if f = "phone_number" then { s with phone_number := v }
  else if f = "whatsapp_number" then { s with whatsapp_number := v }
  else if f = "age" then { s with age := v }
  else if f = "learning_goals" then { s with learning_goals := v }
  else if f = "preferred_lesson_times" then { s with preferred_lesson_times := v }
  else if f = "timezone" then { s with timezone := v }
  else if f = "learning_style" then { s with learning_style := v }
  else if f = "interests" then { s with interests := v }
  else s

/-- `PUT /profile` (`update_profile` in `api/auth.py`): for each name in
`allowed_fields`, if the payload contains it, assign it onto the student;
every other payload key is ignored.  The handler always succeeds (barring a
database failure, which is outside this model). -/
def update_profile (s : Student) (profile_data : List (String × JsonVal)) :
    Student :=
  allowed_fields.foldl
    (fun st f =>
      match List.lookup f profile_data with
      | some v => set_field st f v
      | none => st)
    s

/-- The lesson half of a lifecycle handler's result, when it succeeded. -/
def result_lesson (r : Except ApiError (Student × Lesson)) : Option Lesson :=
  match r with
  | .ok p => some p.2
  | .error _ => none

/-- The student half of a lifecycle handler's result, when it succeeded. -/
def result_student (r : Except ApiError (Student × Lesson)) : Option Student :=
  match r with
  | .ok p => some p.1
  | .error _ => none

/-- A baseline student row used to instantiate theorems at concrete inputs. -/
def sample_student : Student :=
  { id := 1
    clerk_user_id := "clerk_1"
    email := "ana@example.com"
    full_name := .str "Ana"
    phone_number := .null
    whatsapp_number := .null
    age := .num 30
    native_language := "Portuguese"
    english_level := some "B1"
    learning_goals := .null
    preferred_lesson_times := .null
    timezone := .str "America/Sao_Paulo"
    learning_style := .null
    interests := .null
    subscription_status := "active"
    subscription_plan := some "standard"
    stripe_customer_id := none
    trial_lessons_remaining := 2
    total_lessons_completed := 0
    total_minutes_studied := 0
    current_streak_days := 0
    longest_streak_days := 0
    last_active_date := none
    placement_test_score := none
    placement_test_completed := false
    weak_areas := .null
    strong_areas := .null
    custom_curriculum_preferences := .null
    is_active := true }

/-- `sample_student` on the trial plan with 2 trial lessons left. -/
def trial_student : Student :=
  { sample_student with subscription_status := "trial" }

/-- `trial_student` with no trial lessons left. -/
def exhausted_trial_student : Student :=
  { trial_student with trial_lessons_remaining := 0 }

/-- A baseline scheduled lesson of `sample_student`, 1000000s–1003600s. -/
def base_lesson : Lesson :=
  { id := 7
    student_id := 1
    scheduled_start := 1000000
    scheduled_end := 1003600
    duration_minutes := 60
    lesson_type := "live"
    status := "scheduled"
    topic := some "Travel"
    lesson_plan := "plan"
    curriculum_module := none
    difficulty_level := some "B1" }

/-- An in-progress lesson whose `actual_start` was stamped at second 0. -/
def lesson_in_progress : Lesson :=
  { base_lesson with status := "in_progress", actual_start := some 0 }

/-- `absorb_summary` never touches the lesson's status. -/
theorem absorb_summary_status (l : Lesson) (summary : SummaryData) :
    (absorb_summary l summary).status = l.status := by
  rcases summary with ⟨p, c, f⟩
  cases p <;> cases c <;> cases f <;> rfl

/-- One section's inner counting loop of `evaluate_placement`. -/
theorem placement_inner (l : List Bool) (s t : Nat) :
    l.foldl (fun acc2 a => (if a then acc2.1 + 1 else acc2.1, acc2.2 + 1)) (s, t)
      = (s + (l.filter id).length, t + l.length) := by
  induction l generalizing s t with
  | nil => simp
  | cons a l ih =>
    cases a <;> simp [List.foldl_cons, List.filter, ih] <;> omega

/-- The whole counting loop of `evaluate_placement`. -/
theorem placement_outer (answers : List (String × List Bool)) (s t : Nat) :
    answers.foldl
      (fun acc sec => sec.2.foldl
        (fun acc2 a => (if a then acc2.1 + 1 else acc2.1, acc2.2 + 1)) acc)
      (s, t)
      = (s + count_correct answers, t + count_total answers) := by
  induction answers generalizing s t with
  | nil => simp [count_correct, count_total]
  | cons sec rest ih =>
    simp [List.foldl_cons, placement_inner, ih, count_correct, count_total]
    omega

/-- A section's correct answers are at most its answers. -/
theorem count_correct_le_count_total (answers : List (String × List Bool)) :
    count_correct answers ≤ count_total answers := by
  unfold count_correct count_total
  induction answers with
  | nil => simp
  | cons sec rest ih =>
    simp only [List.map_cons, List.sum_cons]
    exact Nat.add_le_add (List.length_filter_le _ _) ih

/-- Rounding zero to one decimal gives zero. -/
theorem roundTo1_zero : roundTo1 0 = 0 := by
  unfold roundTo1 pyRound; norm_num

/-- A list on which `any` is false filters to the empty list. -/
theorem filter_eq_nil_of_any_eq_false {α : Type} (p : α → Bool) (l : List α)
    (h : l.any p = false) : l.filter p = [] := by
  rw [List.any_eq_false] at h
  rw [List.filter_eq_nil_iff]
  exact fun a ha => by simpa using h a ha

/-- C5: the CEFR mapping is total and agrees everywhere with the spec's
fixed thresholds (≥85→C2, ≥70→C1, ≥55→B2, ≥40→B1, ≥25→A2, else A1), and in
particular maps 85 to C2, 84.99 to C1, 70 to C1, 55 to B2, 40 to B1, 25 to
A2 and 0 to A1. -/
theorem determine_cefr_level_matches_spec :
    (∀ score : Rat, determine_cefr_level score = cefr_level_spec score)
    ∧ determine_cefr_level 85 = "C2"
    ∧ determine_cefr_level (8499/100) = "C1"
    ∧ determine_cefr_level 70 = "C1"
    ∧ determine_cefr_level 55 = "B2"
    ∧ determine_cefr_level 40 = "B1"
    ∧ determine_cefr_level 25 = "A2"
    ∧ determine_cefr_level 0 = "A1" := by
  refine ⟨fun score => rfl, ?_, ?_, ?_, ?_, ?_, ?_, ?_⟩ <;>
    (unfold determine_cefr_level; norm_num)

/-- C6: `calculate_improvement_rate` reads the prior assessment at offset 1
of the descending-ordered existing rows, but the new assessment is not yet
inserted when it runs, so offset 1 skips the actual previous assessment:
with exactly one prior assessment (overall 60, dated 10 days = 864000s
before `now`) and current average 70 it returns 0 instead of the claimed
(70−60)/10 = 1; with two priors (the true previous one 2 days old with
overall 64) it computes from the older row (yielding (70−60)/10 = 1, not
(70−64)/2 = 3). -/
theorem calculate_improvement_rate_skips_latest_prior :
    calculate_improvement_rate [⟨0, 60⟩] 70 864000 = 0
    ∧ calculate_improvement_rate [⟨0, 60⟩] 70 864000 ≠ 1
    ∧ calculate_improvement_rate [⟨691200, 64⟩, ⟨0, 60⟩] 70 864000 = 1
    ∧ calculate_improvement_rate [⟨691200, 64⟩, ⟨0, 60⟩] 70 864000 ≠ 3 := by
  refine ⟨?_, ?_, ?_, ?_⟩ <;>
    (simp only [calculate_improvement_rate, List.drop, List.head?]) <;>
    norm_num [Int.fdiv]

/-- C7: the placement-evaluate operation counts correct answers into
`score`, counts all records into `total`, reports the percentage rounded to
one decimal, and in particular maps 18/20 (90%) to recommended level 7 and
12/20 (60%) to recommended level 3. -/
theorem evaluate_placement_scoring :
    (∀ answers, (evaluate_placement answers).score = count_correct answers
      ∧ (evaluate_placement answers).total = count_total answers
      ∧ (evaluate_placement answers).percentage
          = roundTo1 (100 * (count_correct answers : Rat) / (count_total answers : Rat)))
    ∧ evaluate_placement [("quiz", List.replicate 18 true ++ List.replicate 2 false)]
        = ⟨18, 20, 90, 7⟩
    ∧ evaluate_placement [("quiz", List.replicate 12 true ++ List.replicate 8 false)]
        = ⟨12, 20, 60, 3⟩ := by
  refine ⟨fun answers => ?_, ?_, ?_⟩
  · unfold evaluate_placement
    rw [placement_outer]
    simp only [Nat.zero_add, eq_self_iff_true, true_and]
    by_cases hct : count_total answers = 0
    · rw [hct]
      norm_num
    · rw [if_pos (Nat.pos_of_ne_zero hct)]
      ring_nf
  · have h1 : count_correct
        [("quiz", List.replicate 18 true ++ List.replicate 2 false)] = 18 := by decide
    have h2 : count_total
        [("quiz", List.replicate 18 true ++ List.replicate 2 false)] = 20 := by decide
    unfold evaluate_placement
    rw [placement_outer, h1, h2]
    unfold roundTo1 pyRound
    norm_num
  · have h1 : count_correct
        [("quiz", List.replicate 12 true ++ List.replicate 8 false)] = 12 := by decide
    have h2 : count_total
        [("quiz", List.replicate 12 true ++ List.replicate 8 false)] = 20 := by decide
    unfold evaluate_placement
    rw [placement_outer, h1, h2]
    unfold roundTo1 pyRound
    norm_num

/-- C10: with zero answer records (the empty mapping included) the
placement-evaluate operation does not fail: the division is guarded, so it
returns score 0, total 0, percentage 0 and the lowest-bracket level 0. -/
theorem evaluate_placement_zero_records (answers : List (String × List Bool))
    (h : count_total answers = 0) :
    evaluate_placement answers = ⟨0, 0, 0, 0⟩ := by
  have hc : count_correct answers = 0 :=
    Nat.le_zero.mp (h ▸ count_correct_le_count_total answers)
  unfold evaluate_placement
  rw [placement_outer, h, hc]
  norm_num [roundTo1_zero]

/-- Witness for C10 at a mapping holding one empty section. -/
theorem evaluate_placement_zero_records_witness :
    count_total [("ai_knowledge", [])] = 0
    ∧ evaluate_placement [("ai_knowledge", [])] = ⟨0, 0, 0, 0⟩ :=
  ⟨by decide, evaluate_placement_zero_records [("ai_knowledge", [])] (by decide)⟩

/-- C9, counterexample to "mock exactly when no header is present" and to
"a header not starting with Bearer fails with the invalid-format error":
the source tests the header with Python truthiness, so with an *empty*
Authorization header — a present header that does not start with
"Bearer " — development mode still returns the mock identity, and
production fails 401 "Missing authorization header" rather than the
invalid-format error. -/
theorem verify_token_empty_header_is_falsy :
    verify_token "development" (some "") (some "sk") (fun _ => .invalid "bad")
      = .ok dev_mock_user
    ∧ verify_token "production" (some "") (some "sk") (fun _ => .invalid "bad")
        = .error ⟨401, "Missing authorization header"⟩
    ∧ starts_with "" "Bearer " = false := by
  refine ⟨by simp [verify_token], by simp [verify_token], by decide⟩

/-- C9 (amended): the development carve-out of `verify_token` returns the
fixed mock identity exactly when the environment is "development" and the
Authorization header is absent or empty (Python `not authorization`).
Outside development: an absent or empty header fails 401 "Missing
authorization header", a nonempty header not starting with "Bearer " fails
401 with the invalid-format error, and any successful result carries the
identity decoded from the presented token — the mock identity is never
synthesized. -/
theorem verify_token_dev_carveout (env a : String) (clerk_key : Option String)
    (decode : String → DecodeResult)
    (henv : env ≠ "development") (ha : starts_with a "Bearer " = false)
    (ha' : a ≠ "") :
    verify_token "development" none clerk_key decode = .ok dev_mock_user
    ∧ verify_token "development" (some "") clerk_key decode = .ok dev_mock_user
    ∧ verify_token env none clerk_key decode
        = .error ⟨401, "Missing authorization header"⟩
    ∧ verify_token env (some "") clerk_key decode
        = .error ⟨401, "Missing authorization header"⟩
    ∧ verify_token env (some a) clerk_key decode
        = .error ⟨401, "Invalid authorization header format"⟩
    ∧ ∀ auth u, verify_token env auth clerk_key decode = .ok u →
        ∃ t sub email nm, auth = some t
          ∧ decode (t.replace "Bearer " "") = .ok sub email nm
          ∧ u = ⟨sub, email, nm.getD ""⟩ := by
  refine ⟨by simp [verify_token], by simp [verify_token],
    by simp [verify_token, henv], by simp [verify_token, henv], ?_, ?_⟩
  · simp [verify_token, henv, ha, ha']
  · intro auth u hu
    cases auth with
    | none => simp [verify_token, henv] at hu
    | some t =>
      refine ⟨t, ?_⟩
      simp only [verify_token] at hu
      rw [if_neg (by simp [henv])] at hu
      by_cases ht0 : t = ""
      · rw [if_pos ht0] at hu
        simp at hu
      · rw [if_neg ht0] at hu
        by_cases hb : starts_with t "Bearer "
        · rw [if_neg (by simp [hb])] at hu
          cases clerk_key with
          | none => simp at hu
          | some k =>
            simp only at hu
            cases hd : decode (t.replace "Bearer " "") with
            | ok sub email nm =>
              rw [hd] at hu
              simp only [Except.ok.injEq] at hu
              exact ⟨sub, email, nm, rfl, rfl, hu.symm⟩
            | expired => rw [hd] at hu; simp at hu
            | invalid msg => rw [hd] at hu; simp at hu
        · rw [if_pos (by simp [hb])] at hu
          simp at hu

/-- Witness for C9's amended theorem: in a production environment, absent
and empty headers both fail 401 missing-header, a non-Bearer header fails
401 invalid-format, and the carve-out serves the mock identity only in
development. -/
theorem verify_token_dev_carveout_witness :
    verify_token "development" none (some "sk") (fun _ => .invalid "bad")
      = .ok dev_mock_user
    ∧ verify_token "production" none (some "sk") (fun _ => .invalid "bad")
        = .error ⟨401, "Missing authorization header"⟩
    ∧ verify_token "production" (some "") (some "sk") (fun _ => .invalid "bad")
        = .error ⟨401, "Missing authorization header"⟩
    ∧ verify_token "production" (some "Basic abc") (some "sk")
        (fun _ => .invalid "bad")
        = .error ⟨401, "Invalid authorization header format"⟩ :=
  have h := verify_token_dev_carveout "production" "Basic abc" (some "sk")
    (fun _ => .invalid "bad") (by decide) (by decide) (by decide)
  ⟨h.1, h.2.2.1, h.2.2.2.1, h.2.2.2.2.1⟩

/-- C3: for a lesson owned by the authenticated student, "start" on a
non-scheduled lesson, "end" on a non-in-progress lesson and "rate" on a
non-completed lesson each fail with the endpoint's 404 error (and, the
result being an error, no state changes); in the valid cases start yields
status "in_progress", end yields "completed", and cancel on a scheduled
lesson yields "canceled". -/
theorem lesson_invalid_transitions_404 (s : Student)
    (l1 l2 l3 l4 l5 l6 : Lesson) (summary : SummaryData)
    (rating_data : RatingData) (reason : Option String) (now t0 : Int)
    (ho1 : l1.student_id = s.id) (h1 : l1.status ≠ "scheduled")
    (ho2 : l2.student_id = s.id) (h2 : l2.status ≠ "in_progress")
    (ho3 : l3.student_id = s.id) (h3 : l3.status ≠ "completed")
    (ho4 : l4.student_id = s.id) (h4 : l4.status = "scheduled")
    (ho5 : l5.student_id = s.id) (h5 : l5.status = "in_progress")
    (h5' : l5.actual_start = some t0)
    (ho6 : l6.student_id = s.id) (h6 : l6.status = "scheduled") :
    start_lesson s l1 now = .error ⟨404, "Lesson not found or already started"⟩
    ∧ end_lesson s l2 summary now = .error ⟨404, "Active lesson not found"⟩
    ∧ rate_lesson s l3 rating_data = .error ⟨404, "Completed lesson not found"⟩
    ∧ start_lesson s l4 now
        = .ok { l4 with status := "in_progress", actual_start := some now }
    ∧ (result_lesson (end_lesson s l5 summary now)).map Lesson.status
        = some "completed"
    ∧ (result_lesson (cancel_lesson s l6 reason now)).map Lesson.status
        = some "canceled" := by
  refine ⟨?_, ?_, ?_, ?_, ?_, ?_⟩
  · simp [start_lesson, h1]
  · simp [end_lesson, h2]
  · simp [rate_lesson, h3]
  · simp [start_lesson, ho4, h4]
  · simp [end_lesson, ho5, h5, h5', result_lesson, absorb_summary_status]
  · simp [cancel_lesson, ho6, h6, result_lesson]

/-- Witness for C3 at concrete lessons of `sample_student`. -/
theorem lesson_invalid_transitions_404_witness :
    start_lesson sample_student lesson_in_progress 5
      = .error ⟨404, "Lesson not found or already started"⟩
    ∧ end_lesson sample_student base_lesson {} 5
        = .error ⟨404, "Active lesson not found"⟩
    ∧ rate_lesson sample_student base_lesson ⟨5, none⟩
        = .error ⟨404, "Completed lesson not found"⟩
    ∧ start_lesson sample_student base_lesson 5
        = .ok { base_lesson with status := "in_progress", actual_start := some 5 }
    ∧ (result_lesson (end_lesson sample_student lesson_in_progress {} 5)).map
        Lesson.status = some "completed"
    ∧ (result_lesson (cancel_lesson sample_student base_lesson none 5)).map
        Lesson.status = some "canceled" :=
  lesson_invalid_transitions_404 sample_student lesson_in_progress base_lesson
    base_lesson base_lesson lesson_in_progress base_lesson {} ⟨5, none⟩ none 5 0
    (by decide) (by decide) (by decide) (by decide) (by decide) (by decide)
    (by decide) (by decide) (by decide) (by decide) (by decide) (by decide)
    (by decide)

/-- C4 (amended): ending an in-progress lesson with a recorded
`actual_start` sets status "completed", stamps `actual_end = now`,
recomputes `duration_minutes` as the truncation toward zero of
(actual_end − actual_start) in minutes (Python `int(total_seconds/60)`,
not round-to-nearest), absorbs the summary payload, increments the owning
student's `total_lessons_completed` by exactly 1 and
`total_minutes_studied` by exactly the recomputed duration, and stamps
`last_active_date = now`. -/
theorem end_lesson_completion_effects (s : Student) (l : Lesson)
    (summary : SummaryData) (now t0 : Int)
    (hown : l.student_id = s.id) (hst : l.status = "in_progress")
    (has : l.actual_start = some t0) :
    end_lesson s l summary now
      = .ok
        ({ s with
            total_lessons_completed := s.total_lessons_completed + 1
            total_minutes_studied :=
              s.total_minutes_studied + Int.tdiv (now - t0) 60
            last_active_date := some now },
         absorb_summary
           { l with
               status := "completed"
               actual_end := some now
               duration_minutes := Int.tdiv (now - t0) 60 } summary) := by
  simp [end_lesson, hown, hst, has]

/-- Witness for C4's amended theorem: ending `lesson_in_progress`
(`actual_start = 0`) at second 5400 records a 90-minute duration and bumps
the student counters. -/
theorem end_lesson_completion_effects_witness :
    end_lesson sample_student lesson_in_progress {} 5400
      = .ok
        ({ sample_student with
            total_lessons_completed := 1
            total_minutes_studied := 90
            last_active_date := some 5400 },
         absorb_summary
           { lesson_in_progress with
               status := "completed"
               actual_end := some 5400
               duration_minutes := 90 } {}) :=
  end_lesson_completion_effects sample_student lesson_in_progress {} 5400 0
    (by decide) (by decide) (by decide)

/-- C4, counterexample to the claim's rounding: an in-progress lesson whose
`actual_start` was 90 seconds before `now` is recorded with
`duration_minutes = 1` (truncation of 1.5), while rounding 90/60 minutes as
the claim states would give 2. -/
theorem end_lesson_duration_truncates_not_rounds :
    (result_lesson (end_lesson sample_student lesson_in_progress {} 90)).map
        Lesson.duration_minutes = some 1
    ∧ pyRound ((90 : Rat) / 60) = 2 := by
  constructor
  · decide
  · unfold pyRound; norm_num

/-- The schedule request used to instantiate theorems: start at second
1000000, all optional keys absent (duration defaults to 60 minutes, so the
requested interval is [1000000, 1003600)). -/
def c1_req : ScheduleRequest := { scheduled_start := 1000000 }

/-- A scheduled lesson that merely touches the requested interval
(`scheduled_end` = requested start), which the half-open test lets pass. -/
def touching_lesson : Lesson :=
  { base_lesson with id := 8, scheduled_start := 996400, scheduled_end := 1000000 }

/-- A scheduled lesson starting 100 seconds after second 0 (less than 24
hours away). -/
def imminent_lesson : Lesson :=
  { base_lesson with id := 10, scheduled_start := 100, scheduled_end := 3700 }

/-- A scheduled lesson on [1000000, 1001800): the first half of the
requested interval of `c1_req`. -/
def first_half_lesson : Lesson :=
  { base_lesson with
      id := 11
      scheduled_start := 1000000
      scheduled_end := 1001800 }

/-- A scheduled lesson on [1001800, 1003600): the second half of the
requested interval of `c1_req`.  It touches `first_half_lesson` without
overlapping it, so holding both does not violate the no-overlap
invariant. -/
def second_half_lesson : Lesson :=
  { base_lesson with
      id := 12
      scheduled_start := 1001800
      scheduled_end := 1003600 }

/-- C1, counterexample to the universal 400: a student holding two
non-overlapping (touching) scheduled lessons that both overlap the
requested interval makes the conflict query match two rows, so
`scalar_one_or_none()` raises `MultipleResultsFound` and the blanket
`except` surfaces a 500, not the claimed InvalidInput 400. -/
theorem schedule_lesson_two_overlaps_yield_500 :
    schedule_lesson trial_student [first_half_lesson, second_half_lesson]
        c1_req "plan" 9
      = .error ⟨500, "Multiple rows were found when one or none was required"⟩
    ∧ schedule_lesson trial_student [first_half_lesson, second_half_lesson]
        c1_req "plan" 9
      ≠ .error ⟨400, "Time slot conflicts with existing lesson"⟩ := by
  have h : schedule_lesson trial_student [first_half_lesson, second_half_lesson]
      c1_req "plan" 9
      = .error ⟨500, "Multiple rows were found when one or none was required"⟩ :=
    rfl
  refine ⟨h, by rw [h]; simp⟩

/-- C1 (amended): when the conflict query matches exactly one existing
lesson of the student (status scheduled/in_progress, half-open overlap
with the requested interval), scheduling fails with the 400 conflict
error; when it matches two or more rows, `scalar_one_or_none` raises
`MultipleResultsFound` and the handler fails 500; in either case no lesson
is created; with no overlapping lesson (touching endpoints included) the
overlap check passes and the handler proceeds to the trial gate or to
creating the lesson. -/
theorem schedule_lesson_overlap_check (student : Student)
    (lessons1 lessons2 lessons3 : List Lesson) (req : ScheduleRequest)
    (plan : String) (new_id : Nat)
    (h1 : (lessons1.filter (conflict_query student req.scheduled_start
      (req.scheduled_start + req.duration_minutes.getD 60 * 60))).length = 1)
    (h2 : 2 ≤ (lessons2.filter (conflict_query student req.scheduled_start
      (req.scheduled_start + req.duration_minutes.getD 60 * 60))).length)
    (h3 : ∀ l ∈ lessons3, l.student_id = student.id →
      (l.status = "scheduled" ∨ l.status = "in_progress") →
      ¬(l.scheduled_start < req.scheduled_start + req.duration_minutes.getD 60 * 60
        ∧ req.scheduled_start < l.scheduled_end)) :
    schedule_lesson student lessons1 req plan new_id
      = .error ⟨400, "Time slot conflicts with existing lesson"⟩
    ∧ schedule_lesson student lessons2 req plan new_id
        = .error ⟨500, "Multiple rows were found when one or none was required"⟩
    ∧ (schedule_lesson student lessons3 req plan new_id
        = .error ⟨403, "No trial lessons remaining. Please subscribe."⟩
      ∨ ∃ out, schedule_lesson student lessons3 req plan new_id = .ok out
          ∧ out.2.status = "scheduled") := by
  refine ⟨?_, ?_, ?_⟩
  · obtain ⟨x, hx⟩ := List.length_eq_one.mp h1
    simp [schedule_lesson, hx]
  · cases hf : lessons2.filter (conflict_query student req.scheduled_start
        (req.scheduled_start + req.duration_minutes.getD 60 * 60)) with
    | nil => rw [hf] at h2; simp at h2
    | cons a t =>
      cases t with
      | nil => rw [hf] at h2; simp at h2
      | cons b t2 => simp [schedule_lesson, hf]
  · have hc : lessons3.filter (conflict_query student req.scheduled_start
        (req.scheduled_start + req.duration_minutes.getD 60 * 60)) = [] := by
      rw [List.filter_eq_nil_iff]
      intro l hmem hp
      simp only [conflict_query, Bool.and_eq_true, Bool.or_eq_true, beq_iff_eq,
        decide_eq_true_eq] at hp
      exact h3 l hmem hp.1.1.1 hp.1.1.2 ⟨hp.1.2, hp.2⟩
    by_cases ht : student.subscription_status = "trial" ∧
        student.trial_lessons_remaining ≤ 0
    · left
      simp [schedule_lesson, hc, ht]
    · right
      refine ⟨(if student.subscription_status = "trial" then
          { student with
              trial_lessons_remaining := student.trial_lessons_remaining - 1 }
        else student,
        { id := new_id
          student_id := student.id
          scheduled_start := req.scheduled_start
          scheduled_end :=
            req.scheduled_start + req.duration_minutes.getD 60 * 60
          duration_minutes := req.duration_minutes.getD 60
          lesson_type := req.lesson_type.getD "live"
          status := "scheduled"
          topic := req.topic
          lesson_plan := plan
          curriculum_module := req.curriculum_module
          difficulty_level := student.english_level }), ?_, rfl⟩
      simp [schedule_lesson, hc, ht]

/-- Witness for C1's amended theorem: `trial_student` with one overlapping
scheduled lesson is rejected with the 400 conflict error, and with the two
touching half-interval lessons gets the 500 of `MultipleResultsFound` (the
no-overlap side is discharged at a lesson that merely touches the
requested interval). -/
theorem schedule_lesson_overlap_check_witness :
    schedule_lesson trial_student [base_lesson] c1_req "plan" 9
      = .error ⟨400, "Time slot conflicts with existing lesson"⟩
    ∧ schedule_lesson trial_student [first_half_lesson, second_half_lesson]
        c1_req "plan" 9
      = .error ⟨500, "Multiple rows were found when one or none was required"⟩ :=
  have h := schedule_lesson_overlap_check trial_student [base_lesson]
    [first_half_lesson, second_half_lesson] [touching_lesson] c1_req "plan" 9
    (by decide) (by decide) (by decide)
  ⟨h.1, h.2.1⟩

/-- C2: for trial students the schedule gate rejects with 403 when
`trial_lessons_remaining` ≤ 0 (reached once no conflict pre-empts it), a
successful schedule decrements the count by exactly 1, canceling a
scheduled lesson at least 86400 seconds before its start refunds exactly 1,
canceling with less than 86400 seconds remaining leaves the count
unchanged, and a non-trial student's count is never changed by schedule or
cancel. -/
theorem trial_lesson_accounting (s1 s2 s3 s4 s5 : Student)
    (lessons1 lessons2 lessons5 : List Lesson) (req : ScheduleRequest)
    (plan : String) (new_id : Nat) (out2 out5 : Student × Lesson)
    (l3 l4 l5 : Lesson) (reason : Option String) (now : Int)
    (h1t : s1.subscription_status = "trial")
    (h1r : s1.trial_lessons_remaining ≤ 0)
    (h1c : has_conflict s1 lessons1 req.scheduled_start
      (req.scheduled_start + req.duration_minutes.getD 60 * 60) = false)
    (h2t : s2.subscription_status = "trial")
    (h2 : schedule_lesson s2 lessons2 req plan new_id = .ok out2)
    (h3t : s3.subscription_status = "trial") (h3o : l3.student_id = s3.id)
    (h3s : l3.status = "scheduled") (h3h : 86400 ≤ l3.scheduled_start - now)
    (h4t : s4.subscription_status = "trial") (h4o : l4.student_id = s4.id)
    (h4s : l4.status = "scheduled") (h4h : l4.scheduled_start - now < 86400)
    (h5t : s5.subscription_status ≠ "trial")
    (h5 : schedule_lesson s5 lessons5 req plan new_id = .ok out5)
    (h5o : l5.student_id = s5.id) (h5s : l5.status = "scheduled") :
    schedule_lesson s1 lessons1 req plan new_id
      = .error ⟨403, "No trial lessons remaining. Please subscribe."⟩
    ∧ out2.1.trial_lessons_remaining = s2.trial_lessons_remaining - 1
    ∧ (result_student (cancel_lesson s3 l3 reason now)).map
        Student.trial_lessons_remaining
        = some (s3.trial_lessons_remaining + 1)
    ∧ (result_student (cancel_lesson s4 l4 reason now)).map
        Student.trial_lessons_remaining
        = some s4.trial_lessons_remaining
    ∧ out5.1.trial_lessons_remaining = s5.trial_lessons_remaining
    ∧ (result_student (cancel_lesson s5 l5 reason now)).map
        Student.trial_lessons_remaining
        = some s5.trial_lessons_remaining := by
  refine ⟨?_, ?_, ?_, ?_, ?_, ?_⟩
  · have hnil : lessons1.filter (conflict_query s1 req.scheduled_start
        (req.scheduled_start + req.duration_minutes.getD 60 * 60)) = [] :=
      filter_eq_nil_of_any_eq_false _ _ (by simpa [has_conflict] using h1c)
    simp [schedule_lesson, hnil, h1t, h1r]
  · simp only [schedule_lesson] at h2
    cases hf : lessons2.filter (conflict_query s2 req.scheduled_start
        (req.scheduled_start + req.duration_minutes.getD 60 * 60)) with
    | cons a t =>
      cases t with
      | nil => simp [hf] at h2
      | cons b t2 => simp [hf] at h2
    | nil =>
      simp only [hf] at h2
      by_cases hr : s2.subscription_status = "trial" ∧
          s2.trial_lessons_remaining ≤ 0
      · rw [if_pos hr] at h2
        simp at h2
      · rw [if_neg hr] at h2
        simp only [Except.ok.injEq] at h2
        rw [← h2, if_pos h2t]
  · simp [cancel_lesson, h3o, h3s, result_student, h3t, h3h]
  · have hnot : ¬ (86400 ≤ l4.scheduled_start - now) := not_le.mpr h4h
    simp [cancel_lesson, h4o, h4s, result_student, hnot]
  · simp only [schedule_lesson] at h5
    cases hf : lessons5.filter (conflict_query s5 req.scheduled_start
        (req.scheduled_start + req.duration_minutes.getD 60 * 60)) with
    | cons a t =>
      cases t with
      | nil => simp [hf] at h5
      | cons b t2 => simp [hf] at h5
    | nil =>
      simp only [hf] at h5
      by_cases hr : s5.subscription_status = "trial" ∧
          s5.trial_lessons_remaining ≤ 0
      · rw [if_pos hr] at h5
        simp at h5
      · rw [if_neg hr] at h5
        simp only [Except.ok.injEq] at h5
        rw [← h5, if_neg h5t]
  · simp [cancel_lesson, h5o, h5s, result_student, h5t]

/-- The lesson row inserted by a successful `c1_req` schedule under id 9. -/
def c2_lesson : Lesson :=
  { id := 9
    student_id := 1
    scheduled_start := 1000000
    scheduled_end := 1003600
    duration_minutes := 60
    lesson_type := "live"
    status := "scheduled"
    topic := none
    lesson_plan := "plan"
    curriculum_module := none
    difficulty_level := some "B1" }

/-- Witness for C2: the exhausted trial student is rejected with 403, a
far-out cancel refunds one trial lesson, an imminent cancel refunds
nothing. -/
theorem trial_lesson_accounting_witness :
    schedule_lesson exhausted_trial_student [] c1_req "plan" 9
      = .error ⟨403, "No trial lessons remaining. Please subscribe."⟩
    ∧ (result_student (cancel_lesson trial_student base_lesson none 0)).map
        Student.trial_lessons_remaining
        = some (trial_student.trial_lessons_remaining + 1)
    ∧ (result_student (cancel_lesson trial_student imminent_lesson none 0)).map
        Student.trial_lessons_remaining
        = some trial_student.trial_lessons_remaining :=
  have t := trial_lesson_accounting exhausted_trial_student trial_student
    trial_student trial_student sample_student [] [] [] c1_req "plan" 9
    ({ trial_student with trial_lessons_remaining := 1 }, c2_lesson)
    (sample_student, c2_lesson) base_lesson imminent_lesson base_lesson none 0
    (by decide) (by decide) (by decide) (by decide) (by rfl) (by decide)
    (by decide) (by decide) (by decide) (by decide) (by decide) (by decide)
    (by decide) (by decide) (by rfl) (by decide) (by decide)
  ⟨t.1, t.2.2.1, t.2.2.2.1⟩

set_option maxHeartbeats 2000000 in
/-- C8: `update_profile` changes exactly the submitted allow-listed fields
(each taken from the payload when present, kept otherwise) and leaves every
other Student field unchanged — in particular a payload entry for
`subscription_status` has no effect, and the request still succeeds (the
function is total). -/
theorem update_profile_allow_list (s : Student)
    (p : List (String × JsonVal)) :
    (update_profile s p).id = s.id
    ∧ (update_profile s p).clerk_user_id = s.clerk_user_id
    ∧ (update_profile s p).email = s.email
    ∧ (update_profile s p).native_language = s.native_language
    ∧ (update_profile s p).english_level = s.english_level
    ∧ (update_profile s p).subscription_status = s.subscription_status
    ∧ (update_profile s p).subscription_plan = s.subscription_plan
    ∧ (update_profile s p).stripe_customer_id = s.stripe_customer_id
    ∧ (update_profile s p).trial_lessons_remaining = s.trial_lessons_remaining
    ∧ (update_profile s p).total_lessons_completed = s.total_lessons_completed
    ∧ (update_profile s p).total_minutes_studied = s.total_minutes_studied
    ∧ (update_profile s p).current_streak_days = s.current_streak_days
    ∧ (update_profile s p).longest_streak_days = s.longest_streak_days
    ∧ (update_profile s p).last_active_date = s.last_active_date
    ∧ (update_profile s p).placement_test_score = s.placement_test_score
    ∧ (update_profile s p).placement_test_completed = s.placement_test_completed
    ∧ (update_profile s p).weak_areas = s.weak_areas
    ∧ (update_profile s p).strong_areas = s.strong_areas
    ∧ (update_profile s p).custom_curriculum_preferences
        = s.custom_curriculum_preferences
    ∧ (update_profile s p).is_active = s.is_active
    ∧ (update_profile s p).full_name = (List.lookup "full_name" p).getD s.full_name
    ∧ (update_profile s p).phone_number
        = (List.lookup "phone_number" p).getD s.phone_number
    ∧ (update_profile s p).whatsapp_number
        = (List.lookup "whatsapp_number" p).getD s.whatsapp_number
    ∧ (update_profile s p).age = (List.lookup "age" p).getD s.age
    ∧ (update_profile s p).learning_goals
        = (List.lookup "learning_goals" p).getD s.learning_goals
    ∧ (update_profile s p).preferred_lesson_times
        = (List.lookup "preferred_lesson_times" p).getD s.preferred_lesson_times
    ∧ (update_profile s p).timezone = (List.lookup "timezone" p).getD s.timezone
    ∧ (update_profile s p).learning_style
        = (List.lookup "learning_style" p).getD s.learning_style
    ∧ (update_profile s p).interests
        = (List.lookup "interests" p).getD s.interests := by
  simp only [update_profile, allowed_fields, List.foldl_cons, List.foldl_nil]
  rcases h1 : List.lookup "full_name" p with _ | v1 <;>
    rcases h2 : List.lookup "phone_number" p with _ | v2 <;>
    rcases h3 : List.lookup "whatsapp_number" p with _ | v3 <;>
    rcases h4 : List.lookup "age" p with _ | v4 <;>
    rcases h5 : List.lookup "learning_goals" p with _ | v5 <;>
    rcases h6 : List.lookup "preferred_lesson_times" p with _ | v6 <;>
    rcases h7 : List.lookup "timezone" p with _ | v7 <;>
    rcases h8 : List.lookup "learning_style" p with _ | v8 <;>
    rcases h9 : List.lookup "interests" p with _ | v9 <;>
    simp [set_field]
